import Mathlib

/-!
Shallow embedding of the shorts-video pipeline in `app.py` (a Streamlit
application driving five stages: script generation, voice synthesis,
background-image download, subtitle extraction, video rendering).

External collaborators (OpenAI, Typecast, Unsplash, Whisper, moviepy) are
modelled as oracles: each oracle value records the single response the
service gives to the single request the code issues, or the exception the
client raises.  The file system is a map from path strings to file
contents; `st.error` calls are accumulated in an error list; Streamlit
session state is a record with the five keys set up by `init_session`.
Machine floats of the source (segment times, clip durations) are modelled
as exact rationals.  File writes are modelled as total (the embedding does
not model disk failure).
-/

/-- Python `str.strip()`: drop leading and trailing whitespace. -/
def pyStrip (s : String) : String :=
  String.mk (((s.data.dropWhile Char.isWhitespace).reverse.dropWhile Char.isWhitespace).reverse)

/-- Fuel-driven worker for Python `str.replace`: replaces every
non-overlapping occurrence of `pat` left to right.  One unit of fuel is
spent per step and every step consumes at least one character, so
`l.length` fuel always suffices. -/
def replaceFuel (pat rep : List Char) : Nat → List Char → List Char
  | _, [] => []
  | 0, l => l
  | fuel + 1, c :: cs =>
    if pat.isPrefixOf (c :: cs) ∧ pat ≠ [] then
      rep ++ replaceFuel pat rep fuel (cs.drop (pat.length - 1))
    else c :: replaceFuel pat rep fuel cs

/-- Python `str.replace` on character lists. -/
def replaceAll (pat rep l : List Char) : List Char := replaceFuel pat rep l.length l

/-- The chain of three `.replace` calls of `write_log` in `app.py`:
`.mp4`, then `.mp3`, then `.jpg`, each to `_log.txt`. -/
def logPathL (l : List Char) : List Char :=
  replaceAll ('.' :: "jpg".data) "_log.txt".data
    (replaceAll ('.' :: "mp3".data) "_log.txt".data
      (replaceAll ('.' :: "mp4".data) "_log.txt".data l))

/-- The log path computed by `write_log` from an artifact path. -/
def logPath (p : String) : String := String.mk (logPathL p.data)

/-- A subtitle segment as produced by Whisper: a dict with keys
`start`, `end`, `text`.  (`end` is a Lean keyword, so the field is `stop`.) -/
structure Segment where
  start : ℚ
  stop : ℚ
  text : String
deriving DecidableEq

/-- A moviepy `TextClip` as configured by `create_video`: text content,
fixed styling, and the time window `[start, start + duration)`. -/
structure SubClip where
  text : String
  fontsize : Nat
  color : String
  boxWidth : Nat
  method : String
  posH : String
  posV : String
  start : ℚ
  duration : ℚ
deriving DecidableEq

/-- The composite video written by `create_video`: background image layer,
attached audio, subtitle overlays, and encoding parameters. -/
structure VideoSpec where
  imagePath : String
  bgDuration : ℚ
  width : Nat
  height : Nat
  audioPath : String
  audioDuration : ℚ
  clips : List SubClip
  fps : Nat
  videoCodec : String
  audioCodec : String
deriving DecidableEq

/-- Contents of a file on disk: a text file (mode `"w"`), a binary file
(mode `"wb"`), or the encoded video container. -/
inductive FileContent where
  | text (s : String)
  | bytes (b : List Nat)
  | video (v : VideoSpec)
deriving DecidableEq

/-- The file system: path strings to file contents. -/
def Fs : Type := String → Option FileContent

/-- Writing a file: overwrite the entry at `p`. -/
def setFile (fs : Fs) (p : String) (c : FileContent) : Fs :=
  fun q => if q = p then some c else fs q

/-- Process state outside the Streamlit session record: the file system and
the list of `st.error` messages shown so far. -/
structure PState where
  fs : Fs
  errors : List String

/-- `st.error`: append a user-visible error message. -/
def stError (msg : String) (st : PState) : PState :=
  { st with errors := st.errors ++ [msg] }

/-- `write_log` of `app.py`: derive the log path by extension replacement
and write the error message there (mode `"w"`). -/
def write_log (file_path error_message : String) (st : PState) : PState :=
  { st with fs := setFile st.fs (logPath file_path) (FileContent.text error_message) }

/-- Streamlit session state: the five keys set up by `init_session`. -/
structure Session where
  script : String
  edited_script : String
  audio_path : Option String
  image_path : Option String
  segments : Option (List Segment)
deriving DecidableEq

/-- `init_session`: both script fields start as the empty string, the
remaining keys as `None`. -/
def init_session : Session :=
  { script := "", edited_script := "", audio_path := none, image_path := none, segments := none }

/-- Full application state: session record plus file system and errors. -/
structure AppState where
  session : Session
  ps : PState

/-- The parsed OpenAI chat response: the message content the code reads. -/
structure ChatResponse where
  content : String

/-- Oracle for the single `ChatCompletion.create` call: either the response
or the raised exception, carrying its traceback text. -/
abbrev ScriptOracle := Except String ChatResponse

/-- `generate_script` of `app.py`: build the prompt, call the service,
return the stripped content; on exception write the fixed log and show the
error, returning the empty string. -/
def generate_script (topic : String) (o : ScriptOracle) (st : PState) : String × PState :=
  let _prompt := "\x27" ++ topic ++ "\x27에 대해 30초 분량의 유튜브 쇼츠 대본을 만들어줘."
  match o with
  | Except.ok resp => (pyStrip resp.content, st)
  | Except.error tb =>
      ("", stError "대본 생성 중 오류가 발생했습니다." (write_log "output/script_error.txt" tb st))

/-- The JSON payload of the Typecast request (fixed synthesis parameters). -/
structure TcPayload where
  voice : String
  text : String
  speed : ℚ
  pitch : ℚ
  volume : ℚ
  format : String

/-- The `requests` response object fields the code reads: `status_code`,
binary `content`, decoded `text`. -/
structure TcResponse where
  status_code : Nat
  content : List Nat
  text : String

/-- Oracle for the single `requests.post` call: either a response or the
raised exception with its traceback text. -/
abbrev TypecastOracle := Except String TcResponse

/-- `generate_typecast_voice` of `app.py`.  The `voice` parameter defaults
to `"seoyeon"` at the Python definition; callers here pass it explicitly. -/
def generate_typecast_voice (text api_key path voice : String) (o : TypecastOracle)
    (st : PState) : Bool × PState :=
  let _headers := "Bearer " ++ api_key
  let _payload : TcPayload := ⟨voice, text, 1, 1, 1, "mp3"⟩
  match o with
  | Except.ok resp =>
      if resp.status_code = 200 then
        (true, { st with fs := setFile st.fs path (FileContent.bytes resp.content) })
      else
        (false, write_log path resp.text (stError ("Typecast API 오류: " ++ resp.text) st))
  | Except.error tb => (false, write_log path tb st)

/-- The `urls` sub-dict of the Unsplash response; `regular` may be absent,
in which case the subscript raises `KeyError`. -/
structure Urls where
  regular : Option String

/-- The parsed Unsplash metadata response; `urls` may be absent, which the
code turns into a `ValueError`. -/
structure UnsplashData where
  urls : Option Urls

/-- Oracle for the two `requests.get` calls of the image stage: the
metadata fetch and the binary image fetch. -/
structure UnsplashOracle where
  meta : Except String UnsplashData
  image : Except String (List Nat)

/-- The `try`-block body of `download_unsplash_image`: any of its steps can
raise, and a raise aborts the block before the file write. -/
def download_body (keyword access_key save_path : String) (o : UnsplashOracle)
    (st : PState) : Except String PState :=
  let _url := "https://api.unsplash.com/photos/random?query=" ++ keyword ++ "&client_id=" ++ access_key
  match o.meta with
  | Except.error tb => Except.error tb
  | Except.ok data =>
    match data.urls with
    | none => Except.error "ValueError: 이미지 URL을 찾을 수 없습니다."
    | some urls =>
      match urls.regular with
      | none => Except.error "KeyError: regular"
      | some _image_url =>
        match o.image with
        | Except.error tb => Except.error tb
        | Except.ok image_data =>
            Except.ok { st with fs := setFile st.fs save_path (FileContent.bytes image_data) }

/-- `download_unsplash_image` of `app.py`: run the body; every exception is
caught, logged against the save path, and reported.  The function returns
no success indicator (Python `None`); its result type is just the state. -/
def download_unsplash_image (keyword access_key save_path : String) (o : UnsplashOracle)
    (st : PState) : PState :=
  match download_body keyword access_key save_path o st with
  | Except.ok st2 => st2
  | Except.error tb => stError "이미지 다운로드 중 오류가 발생했습니다." (write_log save_path tb st)

/-- Decides whether the image stage fails (metadata exception, missing
`urls`, missing `regular`, or binary-fetch exception). -/
def unsplashFails (o : UnsplashOracle) : Bool :=
  match o.meta with
  | Except.error _ => true
  | Except.ok data =>
    match data.urls with
    | none => true
    | some urls =>
      match urls.regular with
      | none => true
      | some _ =>
        match o.image with
        | Except.error _ => true
        | Except.ok _ => false

/-- The Whisper transcription result: the `segments` key may be absent. -/
structure WhisperResult where
  segments : Option (List Segment)

/-- Oracle for the subtitle stage: the `whisper.load_model` call and the
`model.transcribe` call, each of which can raise. -/
structure WhisperOracle where
  load_model : Except String Unit
  transcribe : Except String WhisperResult

/-- The `try`-block body of `extract_subtitles`: load the model, transcribe,
and return the `segments` value if present, else raise `ValueError`. -/
def extract_body (o : WhisperOracle) : Except String (List Segment) :=
  match o.load_model with
  | Except.error tb => Except.error tb
  | Except.ok _ =>
    match o.transcribe with
    | Except.error tb => Except.error tb
    | Except.ok result =>
      match result.segments with
      | some segs => Except.ok segs
      | none => Except.error "ValueError: 자막 구간이 없습니다."

/-- `extract_subtitles` of `app.py`: every failure of the body is caught,
logged against the audio path, reported, and turned into the empty list. -/
def extract_subtitles (audio_path : String) (o : WhisperOracle) (st : PState) :
    List Segment × PState :=
  match extract_body o with
  | Except.ok segs => (segs, st)
  | Except.error tb =>
      ([], stError "자막 추출 중 오류가 발생했습니다." (write_log audio_path tb st))

/-- Decides whether the subtitle stage fails (model load, transcription, or
missing `segments` key). -/
def whisperFails (o : WhisperOracle) : Bool :=
  match o.load_model with
  | Except.error _ => true
  | Except.ok _ =>
    match o.transcribe with
    | Except.error _ => true
    | Except.ok r => r.segments.isNone

/-- The subtitle overlay built for one segment in `create_video`:
`TextClip(s[\x27text\x27], fontsize=50, color=white, size=(1000, None),
method=caption)`, bottom-centered, starting at `s.start` with duration
`s.stop - s.start`. -/
def mkSubtitleClip (s : Segment) : SubClip :=
  { text := s.text, fontsize := 50, color := "white", boxWidth := 1000,
    method := "caption", posH := "center", posV := "bottom",
    start := s.start, duration := s.stop - s.start }

/-- Oracle for the rendering stage: the native duration of the loaded audio
clip, and whether any load/compose/encode step raises. -/
structure RenderOracle where
  audioDuration : ℚ
  fail : Option String

/-- `create_video` of `app.py`: a 30-second 1080×1920 background layer,
one caption layer per segment, the audio track attached, encoded at 24fps
with libx264/aac; any exception is caught, logged, and reported. -/
def create_video (image_path audio_path : String) (subtitles : List Segment)
    (output_path : String) (o : RenderOracle) (st : PState) : PState :=
  match o.fail with
  | some tb => stError "영상 생성 중 오류가 발생했습니다." (write_log output_path tb st)
  | none =>
    let spec : VideoSpec :=
      { imagePath := image_path, bgDuration := 30, width := 1080, height := 1920,
        audioPath := audio_path, audioDuration := o.audioDuration,
        clips := subtitles.map mkSubtitleClip, fps := 24,
        videoCodec := "libx264", audioCodec := "aac" }
    { st with fs := setFile st.fs output_path (FileContent.video spec) }

/-- A clip is visible at time `t` when `t` lies in `[start, start + duration)`. -/
def activeAt (c : SubClip) (t : ℚ) : Prop :=
  c.start ≤ t ∧ t < c.start + c.duration

/-- The voice-stage button handler: gated on `edited_script` being truthy;
on success it stores the fresh audio path in the session, on failure it
stores nothing. -/
def voiceTrigger (api_key uuid : String) (o : TypecastOracle) (st : AppState) : AppState :=
  if st.session.edited_script ≠ "" then
    let audio_path := ("audio/" ++ uuid) ++ ".mp3"
    let r := generate_typecast_voice st.session.edited_script api_key audio_path "seoyeon" o st.ps
    if r.1 then
      { session := { st.session with audio_path := some audio_path }, ps := r.2 }
    else
      { st with ps := r.2 }
  else st

/-- The image-stage button handler: downloads and then stores the fresh
image path in the session unconditionally (the assignment follows the call
whether or not the download succeeded). -/
def imageTrigger (topic access_key uuid : String) (o : UnsplashOracle) (st : AppState) : AppState :=
  let image_path := ("assets/" ++ uuid) ++ ".jpg"
  let ps := download_unsplash_image topic access_key image_path o st.ps
  { session := { st.session with image_path := some image_path }, ps := ps }

/-- Python truthiness of an optional string session field: `None` and the
empty string are falsy. -/
def truthyOptStr (x : Option String) : Bool :=
  match x with
  | none => false
  | some s => s != ""

/-- Python truthiness of the `segments` session field: `None` and the empty
list are falsy. -/
def truthySegments (x : Option (List Segment)) : Bool :=
  match x with
  | none => false
  | some l => !l.isEmpty

/-- A record of one invocation of `create_video` with its arguments. -/
structure RenderCall where
  image_path : String
  audio_path : String
  subtitles : List Segment
  output_path : String

/-- The render-stage button handler: gated on
`all([segments, image_path, audio_path])`; when the gate passes it invokes
`create_video`, and the returned `Option RenderCall` records that
invocation and its arguments. -/
def renderTrigger (uuid : String) (o : RenderOracle) (st : AppState) :
    AppState × Option RenderCall :=
  if truthySegments st.session.segments && truthyOptStr st.session.image_path
      && truthyOptStr st.session.audio_path then
    let image_path := (st.session.image_path).getD ""
    let audio_path := (st.session.audio_path).getD ""
    let segs := (st.session.segments).getD []
    let output_path := ("output/" ++ uuid) ++ ".mp4"
    let ps := create_video image_path audio_path segs output_path o st.ps
    ({ st with ps := ps }, some ⟨image_path, audio_path, segs, output_path⟩)
  else (st, none)

/-- A process state with an empty file system and no errors shown. -/
def emptyPState : PState := { fs := fun _ => none, errors := [] }

/-- The two-segment transcription result named by the specification. -/
def claimSegs : List Segment := [⟨0, 1.2, "a"⟩, ⟨1.2, 3, "b"⟩]

/-- Two segments with overlapping time windows. -/
def overlapSegs : List Segment := [⟨0, 2, "x"⟩, ⟨1, 3, "y"⟩]

/-- An Unsplash response whose `urls` dict is present but lacks `regular`. -/
def uOracleBad : UnsplashOracle := ⟨Except.ok ⟨some ⟨none⟩⟩, Except.ok [7]⟩

/-- An application state whose edited script is non-empty. -/
def appStateA : AppState :=
  { session := { init_session with edited_script := "hello" }, ps := emptyPState }

/-- An application state after a failed subtitle stage: `segments` holds the
empty list while both artifact paths are populated. -/
def appStateB : AppState :=
  { session :=
      { script := "", edited_script := "", audio_path := some "audio/a.mp3",
        image_path := some "assets/i.jpg", segments := some [] },
    ps := emptyPState }

/-- A Whisper oracle that succeeds with an empty segment list. -/
def whisperEmptyOk : WhisperOracle := ⟨Except.ok (), Except.ok ⟨some []⟩⟩

/-! ## Helper lemmas on the extension-replacement machinery -/

theorem replaceFuel_skip (pr rep : List Char) (c : Char) (cs : List Char) (fuel : Nat)
    (h : c ≠ '.') :
    replaceFuel ('.' :: pr) rep (fuel + 1) (c :: cs) =
      c :: replaceFuel ('.' :: pr) rep fuel cs := by
  have hne : ¬ (('.' :: pr).isPrefixOf (c :: cs) = true ∧ '.' :: pr ≠ []) := by
    rintro ⟨hp, -⟩
    simp [List.isPrefixOf] at hp
    exact h hp.1.symm
  simp only [replaceFuel]
  rw [if_neg hne]

theorem replaceFuel_splice (pr rep t s : List Char) (fuel : Nat) (h : '.' ∉ s) :
    replaceFuel ('.' :: pr) rep (s.length + fuel) (s ++ t) =
      s ++ replaceFuel ('.' :: pr) rep fuel t := by
  induction s with
  | nil => simp
  | cons c cs ih =>
    have hc : c ≠ '.' := fun hc => h (hc ▸ List.mem_cons_self c cs)
    have hcs : '.' ∉ cs := fun hm => h (List.mem_cons_of_mem c hm)
    rw [List.cons_append,
      show (c :: cs).length + fuel = (cs.length + fuel) + 1 by simp [Nat.add_right_comm],
      replaceFuel_skip _ _ _ _ _ hc, ih hcs]
    rfl

theorem replaceAll_splice (pr rep s t : List Char) (h : '.' ∉ s) :
    replaceAll ('.' :: pr) rep (s ++ t) = s ++ replaceAll ('.' :: pr) rep t := by
  unfold replaceAll
  rw [List.length_append, replaceFuel_splice _ _ _ _ _ h]

theorem logPath_mp4 (stem : String) (hdot : '.' ∉ stem.data) :
    logPath (stem ++ ".mp4") = stem ++ "_log.txt" := by
  show String.mk (logPathL (stem.data ++ (".mp4" : String).data)) = stem ++ "_log.txt"
  unfold logPathL
  rw [replaceAll_splice _ _ _ _ hdot,
    show replaceAll ('.' :: "mp4".data) "_log.txt".data (".mp4" : String).data
      = "_log.txt".data by decide,
    replaceAll_splice _ _ _ _ hdot,
    show replaceAll ('.' :: "mp3".data) "_log.txt".data ("_log.txt" : String).data
      = "_log.txt".data by decide,
    replaceAll_splice _ _ _ _ hdot,
    show replaceAll ('.' :: "jpg".data) "_log.txt".data ("_log.txt" : String).data
      = "_log.txt".data by decide]
  rfl

theorem logPath_mp3 (stem : String) (hdot : '.' ∉ stem.data) :
    logPath (stem ++ ".mp3") = stem ++ "_log.txt" := by
  show String.mk (logPathL (stem.data ++ (".mp3" : String).data)) = stem ++ "_log.txt"
  unfold logPathL
  rw [replaceAll_splice _ _ _ _ hdot,
    show replaceAll ('.' :: "mp4".data) "_log.txt".data (".mp3" : String).data
      = (".mp3" : String).data by decide,
    replaceAll_splice _ _ _ _ hdot,
    show replaceAll ('.' :: "mp3".data) "_log.txt".data (".mp3" : String).data
      = "_log.txt".data by decide,
    replaceAll_splice _ _ _ _ hdot,
    show replaceAll ('.' :: "jpg".data) "_log.txt".data ("_log.txt" : String).data
      = "_log.txt".data by decide]
  rfl

theorem logPath_jpg (stem : String) (hdot : '.' ∉ stem.data) :
    logPath (stem ++ ".jpg") = stem ++ "_log.txt" := by
  show String.mk (logPathL (stem.data ++ (".jpg" : String).data)) = stem ++ "_log.txt"
  unfold logPathL
  rw [replaceAll_splice _ _ _ _ hdot,
    show replaceAll ('.' :: "mp4".data) "_log.txt".data (".jpg" : String).data
      = (".jpg" : String).data by decide,
    replaceAll_splice _ _ _ _ hdot,
    show replaceAll ('.' :: "mp3".data) "_log.txt".data (".jpg" : String).data
      = (".jpg" : String).data by decide,
    replaceAll_splice _ _ _ _ hdot,
    show replaceAll ('.' :: "jpg".data) "_log.txt".data (".jpg" : String).data
      = "_log.txt".data by decide]
  rfl

theorem logPath_artifact (stem ext : String) (hdot : '.' ∉ stem.data)
    (hext : ext = ".mp4" ∨ ext = ".mp3" ∨ ext = ".jpg") :
    logPath (stem ++ ext) = stem ++ "_log.txt" := by
  rcases hext with h | h | h <;> subst h
  · exact logPath_mp4 stem hdot
  · exact logPath_mp3 stem hdot
  · exact logPath_jpg stem hdot

theorem logPath_artifact_ne (stem ext : String) (hdot : '.' ∉ stem.data)
    (hext : ext = ".mp4" ∨ ext = ".mp3" ∨ ext = ".jpg") :
    logPath (stem ++ ext) ≠ stem ++ ext := by
  rw [logPath_artifact stem ext hdot hext]
  intro hcontra
  have h1 := congrArg String.length hcontra
  rw [String.length_append, String.length_append] at h1
  have h8 : ("_log.txt" : String).length = 8 := by decide
  rcases hext with h | h | h <;> subst h
  · have h4 : (".mp4" : String).length = 4 := by decide
    omega
  · have h4 : (".mp3" : String).length = 4 := by decide
    omega
  · have h4 : (".jpg" : String).length = 4 := by decide
    omega

theorem stem_no_dot (dir uuid : String) (hdir : '.' ∉ dir.data) (hdot : '.' ∉ uuid.data) :
    '.' ∉ (dir ++ uuid).data := by
  intro hmem
  rw [show (dir ++ uuid).data = dir.data ++ uuid.data from rfl] at hmem
  rcases List.mem_append.mp hmem with h | h
  · exact hdir h
  · exact hdot h

/-! ## Claim theorems -/

/-- C7: for every artifact path (directory plus dot-free stem plus one of the
extensions .mp4, .mp3, .jpg), `write_log` writes the error log at the path
obtained by replacing that extension with "_log.txt" — same name, alternate
extension, alongside the artifact — and touches no other path. -/
theorem write_log_sidecar_path (stem ext msg : String) (st : PState)
    (hdot : '.' ∉ stem.data)
    (hext : ext = ".mp4" ∨ ext = ".mp3" ∨ ext = ".jpg") :
    (write_log (stem ++ ext) msg st).fs (stem ++ "_log.txt") = some (FileContent.text msg) ∧
    ∀ q, q ≠ stem ++ "_log.txt" → (write_log (stem ++ ext) msg st).fs q = st.fs q := by
  have h := logPath_artifact stem ext hdot hext
  constructor
  · simp [write_log, h, setFile]
  · intro q hq
    simp [write_log, h, setFile, hq]

/-- Witness for C7 at a concrete audio artifact path. -/
theorem write_log_sidecar_path_witness :
    (write_log ("audio/a1b2" ++ ".mp3") "boom" emptyPState).fs ("audio/a1b2" ++ "_log.txt")
      = some (FileContent.text "boom") :=
  (write_log_sidecar_path "audio/a1b2" ".mp3" "boom" emptyPState (by decide)
    (Or.inr (Or.inl rfl))).1

/-- C2 counterexample: for the non-empty topic "battery" and a service
response whose text is a single space, `generate_script` returns the empty
string yet writes no log file at the fixed script-error path, refuting the
claimed disjunction (non-empty result, or empty result with exactly one log
file). -/
theorem generate_script_whitespace_cex :
    ¬ (((generate_script "battery" (Except.ok ⟨" "⟩) emptyPState).1 ≠ "") ∨
       (((generate_script "battery" (Except.ok ⟨" "⟩) emptyPState).1 = "") ∧
        (generate_script "battery" (Except.ok ⟨" "⟩) emptyPState).2.fs "output/script_error.txt" ≠ none)) := by
  decide

/-- C2 (amended): for every non-empty topic, `generate_script` returns the
trimmed service response text on success — which is empty when the response
is whitespace-only, with no log produced — and on exception returns the
empty string and produces exactly one log file at the fixed script-error
path (plus the user-visible error). -/
theorem generate_script_amended (topic : String) (o : ScriptOracle) (st : PState)
    (_htopic : topic ≠ "") :
    (∀ resp, o = Except.ok resp → generate_script topic o st = (pyStrip resp.content, st)) ∧
    (∀ tb, o = Except.error tb →
      ((generate_script topic o st).1 = "" ∧
       (generate_script topic o st).2.fs "output/script_error.txt" = some (FileContent.text tb) ∧
       (∀ q, q ≠ "output/script_error.txt" → (generate_script topic o st).2.fs q = st.fs q) ∧
       (generate_script topic o st).2.errors = st.errors ++ ["대본 생성 중 오류가 발생했습니다."])) := by
  have hfix : logPath "output/script_error.txt" = "output/script_error.txt" := by decide
  constructor
  · rintro resp rfl
    rfl
  · rintro tb rfl
    refine ⟨rfl, ?_, ?_, rfl⟩
    · simp [generate_script, stError, write_log, setFile, hfix]
    · intro q hq
      simp [generate_script, stError, write_log, setFile, hfix, hq]

/-- Witness for C2 (amended): a padded response is returned trimmed. -/
theorem generate_script_amended_witness :
    generate_script "topic1" (Except.ok ⟨"  hello  "⟩) emptyPState = ("hello", emptyPState) := by
  have h := (generate_script_amended "topic1" (Except.ok ⟨"  hello  "⟩) emptyPState
    (by decide)).1 ⟨"  hello  "⟩ rfl
  rw [h, show pyStrip "  hello  " = "hello" by decide]

/-- C3: whenever the transcription result carries a `segments` list,
`extract_subtitles` returns exactly that list, in order, with no other
effect. -/
theorem extract_subtitles_exact (audio_path : String) (o : WhisperOracle) (st : PState)
    (result : WhisperResult) (segs : List Segment)
    (hload : o.load_model = Except.ok ())
    (htr : o.transcribe = Except.ok result)
    (hsegs : result.segments = some segs) :
    extract_subtitles audio_path o st = (segs, st) := by
  simp [extract_subtitles, extract_body, hload, htr, hsegs]

/-- Witness for C3 at the two-segment input named in the specification. -/
theorem extract_subtitles_exact_witness :
    extract_subtitles "audio/w.mp3" ⟨Except.ok (), Except.ok ⟨some claimSegs⟩⟩ emptyPState
      = (claimSegs, emptyPState) :=
  extract_subtitles_exact "audio/w.mp3" ⟨Except.ok (), Except.ok ⟨some claimSegs⟩⟩ emptyPState
    ⟨some claimSegs⟩ claimSegs rfl rfl rfl

/-- C4: every subtitle-stage failure — model load error, transcription
error, or missing `segments` key — is caught: a log is written alongside
the audio path, an error is reported, and the empty list is returned,
which coincides with the value returned for a successful transcription
whose segment list is empty (so the caller cannot tell the two apart). -/
theorem extract_subtitles_failure_absorbed (audio_path : String) (o : WhisperOracle) (st : PState)
    (hfail : whisperFails o = true) :
    (extract_subtitles audio_path o st).1 = [] ∧
    (∃ tb, (extract_subtitles audio_path o st).2.fs (logPath audio_path)
      = some (FileContent.text tb)) ∧
    (extract_subtitles audio_path o st).2.errors
      = st.errors ++ ["자막 추출 중 오류가 발생했습니다."] ∧
    (extract_subtitles audio_path o st).1 = (extract_subtitles audio_path whisperEmptyOk st).1 := by
  obtain ⟨lm, tr⟩ := o
  cases lm with
  | error tb =>
      exact ⟨rfl, ⟨tb, by simp [extract_subtitles, extract_body, stError, write_log, setFile]⟩,
        rfl, rfl⟩
  | ok u =>
      cases tr with
      | error tb =>
          exact ⟨rfl, ⟨tb, by simp [extract_subtitles, extract_body, stError, write_log, setFile]⟩,
            rfl, rfl⟩
      | ok result =>
          obtain ⟨segsOpt⟩ := result
          cases segsOpt with
          | none =>
              exact ⟨rfl, ⟨"ValueError: 자막 구간이 없습니다.",
                by simp [extract_subtitles, extract_body, stError, write_log, setFile]⟩, rfl, rfl⟩
          | some segs =>
              exfalso
              simp [whisperFails] at hfail

/-- Witness for C4: a model-load failure yields the empty list. -/
theorem extract_subtitles_failure_absorbed_witness :
    (extract_subtitles "audio/w2.mp3" ⟨Except.error "boom", Except.ok ⟨none⟩⟩ emptyPState).1 = [] :=
  (extract_subtitles_failure_absorbed "audio/w2.mp3" ⟨Except.error "boom", Except.ok ⟨none⟩⟩
    emptyPState (by decide)).1

/-- C1: for a voice-synthesis call on an artifact path `audio/<uuid>.mp3`,
the function returns `true` and writes exactly the binary response body to
the destination path iff the service responded HTTP 200; on any non-200
response it returns `false`, leaves the destination untouched, and produces
only the sidecar log (holding the raw response body) and one user-visible
error; on a request exception it returns `false` and also leaves the
destination untouched. -/
theorem generate_typecast_voice_contract (text api_key path uuid voice : String)
    (o : TypecastOracle) (st : PState)
    (hpath : path = ("audio/" ++ uuid) ++ ".mp3")
    (hdot : '.' ∉ uuid.data) :
    (∀ resp, o = Except.ok resp →
      (((generate_typecast_voice text api_key path voice o st).1 = true ∧
        (generate_typecast_voice text api_key path voice o st).2.fs path
          = some (FileContent.bytes resp.content)) ↔ resp.status_code = 200)) ∧
    (∀ resp, o = Except.ok resp → resp.status_code ≠ 200 →
      ((generate_typecast_voice text api_key path voice o st).1 = false ∧
       (generate_typecast_voice text api_key path voice o st).2.fs path = st.fs path ∧
       (generate_typecast_voice text api_key path voice o st).2.fs (logPath path)
         = some (FileContent.text resp.text) ∧
       (∀ q, q ≠ logPath path →
         (generate_typecast_voice text api_key path voice o st).2.fs q = st.fs q) ∧
       (generate_typecast_voice text api_key path voice o st).2.errors
         = st.errors ++ ["Typecast API 오류: " ++ resp.text])) ∧
    (∀ tb, o = Except.error tb →
      ((generate_typecast_voice text api_key path voice o st).1 = false ∧
       (generate_typecast_voice text api_key path voice o st).2.fs path = st.fs path)) := by
  have hstem : '.' ∉ ("audio/" ++ uuid).data := stem_no_dot "audio/" uuid (by decide) hdot
  have hne : logPath path ≠ path := by
    rw [hpath]
    exact logPath_artifact_ne ("audio/" ++ uuid) ".mp3" hstem (Or.inr (Or.inl rfl))
  have hne2 : ¬ (path = logPath path) := fun h => hne h.symm
  refine ⟨?_, ?_, ?_⟩
  · rintro resp rfl
    by_cases h200 : resp.status_code = 200
    · simp [generate_typecast_voice, h200, setFile]
    · constructor
      · rintro ⟨h1, -⟩
        simp [generate_typecast_voice, h200] at h1
      · intro h
        exact absurd h h200
  · rintro resp rfl h200
    refine ⟨?_, ?_, ?_, ?_, ?_⟩
    · simp [generate_typecast_voice, h200]
    · simp [generate_typecast_voice, h200, write_log, stError, setFile, hne2]
    · simp [generate_typecast_voice, h200, write_log, stError, setFile]
    · intro q hq
      simp [generate_typecast_voice, h200, write_log, stError, setFile, hq]
    · simp [generate_typecast_voice, h200, write_log, stError]
  · rintro tb rfl
    refine ⟨rfl, ?_⟩
    simp [generate_typecast_voice, write_log, setFile, hne2]

/-- Witness for C1: a 404 response yields `false`. -/
theorem generate_typecast_voice_contract_witness :
    (generate_typecast_voice "hi" "k" (("audio/" ++ "u1") ++ ".mp3") "seoyeon"
      (Except.ok ⟨404, [], "bad"⟩) emptyPState).1 = false :=
  ((generate_typecast_voice_contract "hi" "k" (("audio/" ++ "u1") ++ ".mp3") "u1" "seoyeon"
      (Except.ok ⟨404, [], "bad"⟩) emptyPState rfl (by decide)).2.1 ⟨404, [], "bad"⟩ rfl
      (by decide)).1

/-- Every image-stage failure aborts the body with an exception that the
wrapper converts into the generic log-and-report state. -/
theorem download_body_fails (keyword access_key save_path : String) (o : UnsplashOracle)
    (st : PState) (hfail : unsplashFails o = true) :
    ∃ tb, download_body keyword access_key save_path o st = Except.error tb ∧
      download_unsplash_image keyword access_key save_path o st =
        stError "이미지 다운로드 중 오류가 발생했습니다." (write_log save_path tb st) := by
  obtain ⟨meta, image⟩ := o
  cases meta with
  | error tb => exact ⟨tb, rfl, rfl⟩
  | ok data =>
    obtain ⟨urls⟩ := data
    cases urls with
    | none => exact ⟨"ValueError: 이미지 URL을 찾을 수 없습니다.", rfl, rfl⟩
    | some u =>
      obtain ⟨reg⟩ := u
      cases reg with
      | none => exact ⟨"KeyError: regular", rfl, rfl⟩
      | some link =>
        cases image with
        | error tb => exact ⟨tb, rfl, rfl⟩
        | ok image_data =>
          exfalso
          simp [unsplashFails] at hfail

/-- C5: for every failure of the image stage — metadata-fetch exception,
missing `urls`, missing `urls.regular`, or binary-fetch exception — the
body raises, `download_unsplash_image` catches the exception (its result is
a plain state, never a propagated exception), writes a log file at the path
derived from the save path, and shows the generic error; the function
returns no boolean success signal (its Python return value is `None`). -/
theorem download_unsplash_image_absorbs_failures (keyword access_key save_path : String)
    (o : UnsplashOracle) (st : PState)
    (hfail : unsplashFails o = true) :
    ∃ tb, download_body keyword access_key save_path o st = Except.error tb ∧
      (download_unsplash_image keyword access_key save_path o st).fs (logPath save_path)
        = some (FileContent.text tb) ∧
      (download_unsplash_image keyword access_key save_path o st).errors
        = st.errors ++ ["이미지 다운로드 중 오류가 발생했습니다."] := by
  obtain ⟨tb, h1, h2⟩ := download_body_fails keyword access_key save_path o st hfail
  refine ⟨tb, h1, ?_, ?_⟩
  · rw [h2]
    simp [stError, write_log, setFile]
  · rw [h2]
    simp [stError, write_log]

/-- Witness for C5 at a response whose `urls` dict lacks `regular`. -/
theorem download_unsplash_image_absorbs_failures_witness :
    (download_unsplash_image "cat" "k" "assets/i1.jpg" uOracleBad emptyPState).errors
      = ["이미지 다운로드 중 오류가 발생했습니다."] := by
  obtain ⟨tb, h1, h2, h3⟩ := download_unsplash_image_absorbs_failures "cat" "k" "assets/i1.jpg"
    uOracleBad emptyPState (by decide)
  simpa [emptyPState] using h3

/-- C6: on every successful render, the written video has a background held
for a fixed 30 seconds at a fixed 1080×1920 frame — whatever the audio
duration — is encoded at 24fps, and carries one caption clip per subtitle
segment, each independently windowed to exactly `[start, stop)` of its
segment; overlapping windows are all present, none is rejected. -/
theorem create_video_layout (image_path audio_path : String) (subtitles : List Segment)
    (output_path : String) (o : RenderOracle) (st : PState)
    (hok : o.fail = none) :
    ∃ spec : VideoSpec,
      (create_video image_path audio_path subtitles output_path o st).fs output_path
        = some (FileContent.video spec) ∧
      spec.bgDuration = 30 ∧
      spec.width = 1080 ∧
      spec.height = 1920 ∧
      spec.fps = 24 ∧
      spec.audioDuration = o.audioDuration ∧
      spec.clips = subtitles.map mkSubtitleClip ∧
      (∀ s, s ∈ subtitles → ∀ t : ℚ,
        activeAt (mkSubtitleClip s) t ↔ (s.start ≤ t ∧ t < s.stop)) := by
  refine ⟨⟨image_path, 30, 1080, 1920, audio_path, o.audioDuration,
    subtitles.map mkSubtitleClip, 24, "libx264", "aac"⟩, ?_, rfl, rfl, rfl, rfl, rfl, rfl, ?_⟩
  · simp [create_video, hok, setFile]
  · intro s hs t
    show s.start ≤ t ∧ t < s.start + (s.stop - s.start) ↔ s.start ≤ t ∧ t < s.stop
    constructor
    · rintro ⟨h1, h2⟩
      exact ⟨h1, by linarith⟩
    · rintro ⟨h1, h2⟩
      exact ⟨h1, by linarith⟩

/-- Witness for C6 at a list of two overlapping segments. -/
theorem create_video_layout_witness :
    ∃ spec : VideoSpec,
      (create_video "assets/i.jpg" "audio/a.mp3" overlapSegs "output/v.mp4" ⟨12, none⟩
        emptyPState).fs "output/v.mp4" = some (FileContent.video spec) ∧
      spec.bgDuration = 30 ∧ spec.fps = 24 ∧ spec.clips = overlapSegs.map mkSubtitleClip := by
  obtain ⟨spec, h1, h2, h3, h4, h5, h6, h7, h8⟩ := create_video_layout "assets/i.jpg"
    "audio/a.mp3" overlapSegs "output/v.mp4" ⟨12, none⟩ emptyPState rfl
  exact ⟨spec, h1, h2, h5, h7⟩

/-- C8: the image-stage trigger overwrites `image_path` with the freshly
generated save path unconditionally — for every oracle, including failing
ones — and when the download failed on a fresh path, the session afterwards
names a path at which no file exists. -/
theorem imageTrigger_unconditional_overwrite (topic access_key uuid : String)
    (o : UnsplashOracle) (st : AppState)
    (hdot : '.' ∉ uuid.data)
    (hfresh : st.ps.fs (("assets/" ++ uuid) ++ ".jpg") = none) :
    (imageTrigger topic access_key uuid o st).session.image_path
      = some (("assets/" ++ uuid) ++ ".jpg") ∧
    (unsplashFails o = true →
      (imageTrigger topic access_key uuid o st).ps.fs (("assets/" ++ uuid) ++ ".jpg") = none) := by
  have hstem : '.' ∉ ("assets/" ++ uuid).data := stem_no_dot "assets/" uuid (by decide) hdot
  have hne : logPath (("assets/" ++ uuid) ++ ".jpg") ≠ ("assets/" ++ uuid) ++ ".jpg" :=
    logPath_artifact_ne ("assets/" ++ uuid) ".jpg" hstem (Or.inr (Or.inr rfl))
  have hne2 : ¬ ((("assets/" ++ uuid) ++ ".jpg") = logPath (("assets/" ++ uuid) ++ ".jpg")) :=
    fun h => hne h.symm
  constructor
  · rfl
  · intro hfail
    obtain ⟨tb, h1, h2⟩ := download_body_fails topic access_key (("assets/" ++ uuid) ++ ".jpg")
      o st.ps hfail
    show (download_unsplash_image topic access_key (("assets/" ++ uuid) ++ ".jpg")
      o st.ps).fs (("assets/" ++ uuid) ++ ".jpg") = none
    rw [h2]
    simp [stError, write_log, setFile, hne2, hfresh]

/-- Witness for C8: after a failed download the session points at a path
holding no file. -/
theorem imageTrigger_unconditional_overwrite_witness :
    (imageTrigger "cat" "k2" "u7" uOracleBad appStateA).ps.fs (("assets/" ++ "u7") ++ ".jpg")
      = none :=
  (imageTrigger_unconditional_overwrite "cat" "k2" "u7" uOracleBad appStateA (by decide) rfl).2
    (by decide)

/-- C9: the voice-stage trigger updates `audio_path` only when
`generate_typecast_voice` returned `true`; on failure the whole session
record is unchanged, and in every case the four other session fields are
untouched by the voice stage. -/
theorem voiceTrigger_frame (api_key uuid : String) (o : TypecastOracle) (st : AppState) :
    ((generate_typecast_voice st.session.edited_script api_key (("audio/" ++ uuid) ++ ".mp3")
        "seoyeon" o st.ps).1 = false →
      (voiceTrigger api_key uuid o st).session = st.session) ∧
    ((voiceTrigger api_key uuid o st).session.audio_path ≠ st.session.audio_path →
      (generate_typecast_voice st.session.edited_script api_key (("audio/" ++ uuid) ++ ".mp3")
        "seoyeon" o st.ps).1 = true) ∧
    ((voiceTrigger api_key uuid o st).session.script = st.session.script ∧
     (voiceTrigger api_key uuid o st).session.edited_script = st.session.edited_script ∧
     (voiceTrigger api_key uuid o st).session.image_path = st.session.image_path ∧
     (voiceTrigger api_key uuid o st).session.segments = st.session.segments) := by
  by_cases hgate : st.session.edited_script ≠ ""
  · cases hres : (generate_typecast_voice st.session.edited_script api_key
        (("audio/" ++ uuid) ++ ".mp3") "seoyeon" o st.ps).1 with
    | false =>
        have hv : (voiceTrigger api_key uuid o st).session = st.session := by
          simp [voiceTrigger, hgate, hres]
        refine ⟨fun _ => hv, fun hcontra => ?_, by rw [hv], by rw [hv], by rw [hv], by rw [hv]⟩
        exact absurd (congrArg Session.audio_path hv) hcontra
    | true =>
        have hv : (voiceTrigger api_key uuid o st).session =
            { st.session with audio_path := some (("audio/" ++ uuid) ++ ".mp3") } := by
          simp [voiceTrigger, hgate, hres]
        refine ⟨fun hfalse => absurd hfalse (by decide), fun _ => rfl,
          by rw [hv], by rw [hv], by rw [hv], by rw [hv]⟩
  · have hv : voiceTrigger api_key uuid o st = st := by
      simp only [voiceTrigger]
      rw [if_neg hgate]
    refine ⟨fun _ => by rw [hv], fun hcontra => ?_, by rw [hv], by rw [hv], by rw [hv], by rw [hv]⟩
    exact absurd (congrArg (fun a => a.session.audio_path) hv) hcontra

/-- Witness for C9: a 500 response leaves the session untouched. -/
theorem voiceTrigger_frame_witness :
    (voiceTrigger "k" "u9" (Except.ok ⟨500, [], "e"⟩) appStateA).session = appStateA.session :=
  (voiceTrigger_frame "k" "u9" (Except.ok ⟨500, [], "e"⟩) appStateA).1 (by decide)

theorem truthySegments_iff (x : Option (List Segment)) :
    truthySegments x = true ↔ ∃ l, x = some l ∧ l ≠ [] := by
  cases x with
  | none => simp [truthySegments]
  | some l => simp [truthySegments]

theorem truthyOptStr_iff (x : Option String) :
    truthyOptStr x = true ↔ ∃ s, x = some s ∧ s ≠ "" := by
  cases x with
  | none => simp [truthyOptStr]
  | some s => simp [truthyOptStr]

/-- C10: whenever the render trigger actually invokes `create_video`, the
subtitle list is non-empty and both artifact paths are present (non-empty)
in the session — the gate requires all three fields truthy — and
conversely, a session holding the empty segment list (as stored by a failed
subtitle stage) or no segment list at all makes the invocation unreachable. -/
theorem renderTrigger_gate (uuid : String) (o : RenderOracle) (st : AppState) :
    (∀ call, (renderTrigger uuid o st).2 = some call →
      call.subtitles ≠ [] ∧ call.image_path ≠ "" ∧ call.audio_path ≠ "" ∧
      st.session.segments = some call.subtitles ∧
      st.session.image_path = some call.image_path ∧
      st.session.audio_path = some call.audio_path) ∧
    (st.session.segments = some [] → (renderTrigger uuid o st).2 = none) ∧
    (st.session.segments = none → (renderTrigger uuid o st).2 = none) := by
  refine ⟨?_, ?_, ?_⟩
  · intro call hcall
    by_cases hcond : (truthySegments st.session.segments && truthyOptStr st.session.image_path
        && truthyOptStr st.session.audio_path) = true
    · have hc := hcond
      simp only [Bool.and_eq_true] at hc
      obtain ⟨⟨h1, h2⟩, h3⟩ := hc
      obtain ⟨l, hl, hlne⟩ := (truthySegments_iff _).mp h1
      obtain ⟨ip, hip, hipne⟩ := (truthyOptStr_iff _).mp h2
      obtain ⟨ap, hap, hapne⟩ := (truthyOptStr_iff _).mp h3
      simp only [renderTrigger] at hcall
      rw [if_pos hcond] at hcall
      simp only [hl, hip, hap, Option.getD_some] at hcall
      have hcall2 : call = RenderCall.mk ip ap l (("output/" ++ uuid) ++ ".mp4") :=
        (Option.some.inj hcall).symm
      subst hcall2
      exact ⟨hlne, hipne, hapne, hl, hip, hap⟩
    · simp only [renderTrigger] at hcall
      rw [if_neg hcond] at hcall
      simp at hcall
  · intro h
    simp [renderTrigger, truthySegments, h]
  · intro h
    simp [renderTrigger, truthySegments, h]

/-- Witness for C10: with the empty segment list stored, the render stage
never calls `create_video`. -/
theorem renderTrigger_gate_witness :
    (renderTrigger "u5" ⟨10, none⟩ appStateB).2 = none :=
  (renderTrigger_gate "u5" ⟨10, none⟩ appStateB).2.1 rfl
